import Mathlib

/-!
Shallow embedding of the two-city weather-card renderer
(`scripts/render.py`, plus the plain-panel variant `render1.py`).

Python dynamic values that flow through the payload are modelled by `PyVal`
(JSON null / string / number).  Numbers are modelled as exact fractions
`PyNum` (integer numerator over a positive natural denominator, kept
unreduced so that every operation evaluates by kernel reduction); `toRat`
maps them to `ℚ` for specification-level statements.  A dict field that
may be absent is an `Option PyVal` (`Option.none` = key absent,
`PyVal.none` = key present with JSON null).  The wall clock
(`datetime.utcnow()`) is passed in explicitly as a `Date` parameter, so
dependence on it is visible in the statements.
-/

deriving instance DecidableEq for Except

namespace Render

/-- An exact fraction standing in for a Python float: `num / den`.
All well-formed values keep `0 < den`; operations stay in integers so the
kernel can evaluate them. -/
structure PyNum where
  num : Int
  den : Nat
deriving Repr, DecidableEq

/-- The rational value of a `PyNum`, for specification statements. -/
def PyNum.toRat (x : PyNum) : Rat := (x.num : Rat) / (x.den : Rat)

/-- A whole-number `PyNum`. -/
def PyNum.ofInt (n : Int) : PyNum := ⟨n, 1⟩

/-- A Python/JSON scalar value as it appears in the payload. -/
inductive PyVal where
  | none
  | str (s : String)
  | num (q : PyNum)
deriving Repr, DecidableEq

/-- Python truthiness of a scalar (`None`, `""`, `0` are falsy). -/
def pyTruthy : PyVal → Bool
  | PyVal.none => false
  | PyVal.str s => s ≠ ""
  | PyVal.num q => q.num ≠ 0

/-- Python `str(...)` on a scalar.  The numeric case approximates Python's
float repr; no property proved here feeds a number through it. -/
def pyStr : PyVal → String
  | PyVal.str s => s
  | PyVal.none => "None"
  | PyVal.num q => toString q.num ++ "/" ++ toString q.den

/-- What Python `float(str)` can produce: a finite value, a signed
infinity (from `"inf"` spellings or decimal overflow, e.g. `"1e999"`), or
a NaN. -/
inductive PyFloat where
  | finite (q : PyNum)
  | inf (neg : Bool)
  | nan
deriving Repr, DecidableEq

/-- Whitespace test used by Python's `float(str)` / `str.strip()`. -/
def isWS (c : Char) : Bool := c = ' ' ∨ c = '\t' ∨ c = '\n' ∨ c = '\r'

/-- Strip whitespace from both ends of a character list (`str.strip()`). -/
def stripWS (cs : List Char) : List Char :=
  ((cs.dropWhile isWS).reverse.dropWhile isWS).reverse

/-- Value of a digit list read in base 10 (no validation). -/
def digitsVal (cs : List Char) : Nat :=
  cs.foldl (fun n c => n * 10 + (c.toNat - 48)) 0

/-- Consume a run of digits with single underscores allowed between
digits (Python numeric-literal grammar): accumulated value, number of
digits consumed, rest.  Stops before a trailing or doubled underscore,
leaving it in the rest (so a full-consumption check rejects it, as
Python does). -/
def digitRunAux : List Char → Nat → Nat → Nat × Nat × List Char
  | [], acc, n => (acc, n, [])
  | [c], acc, n =>
      if c.isDigit then (acc * 10 + (c.toNat - 48), n + 1, [])
      else (acc, n, [c])
  | c :: d :: rest, acc, n =>
      if c.isDigit then digitRunAux (d :: rest) (acc * 10 + (c.toNat - 48)) (n + 1)
      else if c = '_' ∧ d.isDigit then digitRunAux rest (acc * 10 + (d.toNat - 48)) (n + 1)
      else (acc, n, c :: d :: rest)

/-- A digit run that must start with a digit. -/
def parseDigitRun (cs : List Char) : Option (Nat × Nat × List Char) :=
  match cs with
  | c :: _ => if c.isDigit then Option.some (digitRunAux cs 0 0) else Option.none
  | [] => Option.none

/-- Mantissa `digits[.digits]`, `digits.`, or `.digits`: integer value of
all mantissa digits, number of fraction digits, total digit count, rest. -/
def parseMantissa (cs : List Char) : Option (Nat × Nat × Nat × List Char) :=
  match parseDigitRun cs with
  | Option.some (ip, ipc, rest) =>
      match rest with
      | '.' :: rest2 =>
          match parseDigitRun rest2 with
          | Option.some (fp, fpc, rest3) =>
              Option.some (ip * 10 ^ fpc + fp, fpc, ipc + fpc, rest3)
          | Option.none => Option.some (ip, 0, ipc, rest2)
      | _ => Option.some (ip, 0, ipc, rest)
  | Option.none =>
      match cs with
      | '.' :: rest2 =>
          match parseDigitRun rest2 with
          | Option.some (fp, fpc, rest3) => Option.some (fp, fpc, fpc, rest3)
          | Option.none => Option.none
      | _ => Option.none

/-- Signed exponent digits after the `e`/`E`. -/
def parseExponent (cs : List Char) : Option (Int × List Char) :=
  let signed : Bool × List Char :=
    match cs with
    | '-' :: r => (true, r)
    | '+' :: r => (false, r)
    | r => (false, r)
  match parseDigitRun signed.2 with
  | Option.some (ev, _, rest) =>
      Option.some ((if signed.1 then -(ev : Int) else (ev : Int)), rest)
  | Option.none => Option.none

/-- The IEEE-double overflow threshold: a real of magnitude
`≥ 2^1024 - 2^970` rounds (to nearest, ties to even) to infinity;
anything smaller stays finite. -/
def doubleOverflowT : Nat := 2 ^ 1024 - 2 ^ 970

/-- Classify the exactly-parsed decimal `± M * 10 ^ net` the way C's
`strtod` does: overflow to the matching infinity past `doubleOverflowT`,
collapse to 0.0 far below the subnormal range, otherwise the exact
rational (the finite-value idealization used throughout this model).
`cnt` is the count of mantissa digit characters (an upper bound on the
digits of `M`), used only to bound the powers that are computed. -/
def classifyFloat (neg : Bool) (M : Nat) (net : Int) (cnt : Nat) : PyFloat :=
  if M = 0 then PyFloat.finite ⟨0, 1⟩
  else if 0 ≤ net then
    if 309 ≤ net then PyFloat.inf neg
    else
      let v := M * 10 ^ net.toNat
      if doubleOverflowT ≤ v then PyFloat.inf neg
      else PyFloat.finite ⟨(if neg then -(v : Int) else (v : Int)), 1⟩
  else
    let k := (-net).toNat
    if 324 + cnt ≤ k then PyFloat.finite ⟨0, 1⟩
    else if doubleOverflowT * 10 ^ k ≤ M then PyFloat.inf neg
    else PyFloat.finite ⟨(if neg then -(M : Int) else (M : Int)), 10 ^ k⟩

/-- Model of Python `float(s)` on a string: optional surrounding
whitespace, optional sign, then a decimal literal with optional fraction,
optional exponent and underscores between digits, or one of the special
spellings `inf` / `infinity` / `nan` (case-insensitive).  Decimal
overflow yields an infinity exactly as `strtod` does. -/
def parseFloat (s : String) : Option PyFloat :=
  let cs0 := stripWS s.data
  let signed : Bool × List Char :=
    match cs0 with
    | '-' :: r => (true, r)
    | '+' :: r => (false, r)
    | r => (false, r)
  let neg := signed.1
  let cs := signed.2
  let low := cs.map Char.toLower
  if low = "inf".data ∨ low = "infinity".data then Option.some (PyFloat.inf neg)
  else if low = "nan".data then Option.some PyFloat.nan
  else
    match parseMantissa cs with
    | Option.none => Option.none
    | Option.some (M, fn, cnt, rest) =>
        match rest with
        | [] => Option.some (classifyFloat neg M (-(fn : Int)) cnt)
        | 'e' :: er =>
            match parseExponent er with
            | Option.some (ex, []) => Option.some (classifyFloat neg M (ex - (fn : Int)) cnt)
            | _ => Option.none
        | 'E' :: er =>
            match parseExponent er with
            | Option.some (ex, []) => Option.some (classifyFloat neg M (ex - (fn : Int)) cnt)
            | _ => Option.none
        | _ => Option.none

/-- The successful part of Python `float(x)` on a scalar: numbers convert
(JSON numbers are finite), strings parse — possibly to ±inf or nan —
and `None` (a `TypeError` in Python) fails. -/
def toFloatOpt : PyVal → Option PyFloat
  | PyVal.num q => Option.some (PyFloat.finite q)
  | PyVal.str s => parseFloat s
  | PyVal.none => Option.none

/-- `to_float(x, default)` from `scripts/render.py`: `float(x)` with every
exception mapped to the default.  A string that converts to ±inf or nan
is a *successful* `float()` call, so it passes through — the guard does
not cover the `round`/`int` applied by the callers. -/
def to_float (x : PyVal) (default : PyNum) : PyFloat :=
  (toFloatOpt x).getD (PyFloat.finite default)

/-- The uncaught exceptions of `round(x)` / `int(x)` on a non-finite
float: `OverflowError` on ±inf, `ValueError` on nan. -/
inductive NumErr where
  | overflowError
  | valueError
deriving Repr, DecidableEq

/-- Python 3 `round(x)` on our fraction model: round to the nearest
integer, ties to even (banker's rounding).  Uses Euclidean div/mod, which
for a positive denominator is floor division. -/
def pyRound (x : PyNum) : Int :=
  let d : Int := (x.den : Int)
  let fl : Int := x.num / d
  let r : Int := x.num % d
  if 2 * r < d then fl
  else if d < 2 * r then fl + 1
  else if fl % 2 = 0 then fl else fl + 1

/-- Python `int(x)` on a float: truncation toward zero. -/
def truncInt (x : PyNum) : Int :=
  if x.num < 0 then -((-x.num) / (x.den : Int)) else x.num / (x.den : Int)

/-- Python `round` on a float: finite values round half-to-even; ±inf
raises `OverflowError`, nan raises `ValueError`. -/
def pyRoundF : PyFloat → Except NumErr Int
  | PyFloat.finite q => Except.ok (pyRound q)
  | PyFloat.inf _ => Except.error NumErr.overflowError
  | PyFloat.nan => Except.error NumErr.valueError

/-- Python `int` on a float: truncation toward zero on finite values;
±inf raises `OverflowError`, nan raises `ValueError`. -/
def truncIntF : PyFloat → Except NumErr Int
  | PyFloat.finite q => Except.ok (truncInt q)
  | PyFloat.inf _ => Except.error NumErr.overflowError
  | PyFloat.nan => Except.error NumErr.valueError

/-- Python's `f"{n:+d}"`: always an explicit sign. -/
def fmtSigned (n : Int) : String :=
  if 0 ≤ n then "+" ++ toString n else "-" ++ toString (-n)

/-- `fmt_temp` from `scripts/render.py`: `f"{int(round(to_float(v))):+d}"`.
The `round` is outside `to_float`'s guard, so an inf/nan value raises. -/
def fmt_temp (v : PyVal) : Except NumErr String :=
  match pyRoundF (to_float v ⟨0, 1⟩) with
  | Except.ok n => Except.ok (fmtSigned n)
  | Except.error e => Except.error e

/-- `fmt_temp_full` from `scripts/render.py`. -/
def fmt_temp_full (v : PyVal) : Except NumErr String :=
  match fmt_temp v with
  | Except.ok s => Except.ok (s ++ "°C")
  | Except.error e => Except.error e

/-- `fmt_wind` from `scripts/render.py`. -/
def fmt_wind (v : PyVal) : Except NumErr String :=
  match pyRoundF (to_float v ⟨0, 1⟩) with
  | Except.ok n => Except.ok ("ветер " ++ toString n ++ " м/с")
  | Except.error e => Except.error e

/-- `fmt_rain` from `scripts/render.py`. -/
def fmt_rain (p : PyVal) : Except NumErr String :=
  match pyRoundF (to_float p ⟨0, 1⟩) with
  | Except.ok n => Except.ok ("дождь " ++ toString n ++ "%")
  | Except.error e => Except.error e

/-! ### Calendar dates (model of `datetime.date`) -/

/-- A calendar date. -/
structure Date where
  year : Int
  month : Nat
  day : Nat
deriving Repr, DecidableEq

/-- Leap year in the proleptic Gregorian calendar. -/
def isLeap (y : Int) : Bool := y % 4 = 0 ∧ (y % 100 ≠ 0 ∨ y % 400 = 0)

/-- Days in a given month (1-based). -/
def daysInMonth (y : Int) (m : Nat) : Nat :=
  if m = 2 then (if isLeap y then 29 else 28)
  else if m = 4 ∨ m = 6 ∨ m = 9 ∨ m = 11 then 30
  else 31

/-- Serial day number (days since 1970-01-01) of a civil date.  Euclidean
`/` and `%` on `Int` are floor division for the positive moduli used here. -/
def daysFromCivil (dt : Date) : Int :=
  let y : Int := if dt.month ≤ 2 then dt.year - 1 else dt.year
  let era : Int := y / 400
  let yoe : Int := y % 400
  let mp : Nat := (dt.month + 9) % 12
  let doy : Int := ((153 * mp + 2) / 5 : Nat) + dt.day - 1
  let doe : Int := yoe * 365 + yoe / 4 - yoe / 100 + doy
  era * 146097 + doe - 719468

/-- Civil date of a serial day number (inverse of `daysFromCivil`). -/
def civilFromDays (z : Int) : Date :=
  let z' : Int := z + 719468
  let era : Int := z' / 146097
  let doe : Nat := (z' % 146097).toNat
  let yoe : Nat := (doe - doe / 1460 + doe / 36524 - doe / 146096) / 365
  let doy : Nat := doe - (365 * yoe + yoe / 4 - yoe / 100)
  let mp : Nat := (5 * doy + 2) / 153
  let d : Nat := doy - (153 * mp + 2) / 5 + 1
  let m : Nat := if mp < 10 then mp + 3 else mp - 9
  ⟨(yoe : Int) + era * 400 + (if m ≤ 2 then 1 else 0), m, d⟩

/-- Python `date.weekday()`: Monday = 0.  Day 0 (1970-01-01) was a
Thursday (= 3). -/
def weekdayOfDays (z : Int) : Nat := ((z + 3) % 7).toNat

/-- Russian weekday abbreviations (`RU_DOW` in `scripts/render.py`). -/
def RU_DOW : List String := ["Пн", "Вт", "Ср", "Чт", "Пт", "Сб", "Вс"]

/-- Russian month abbreviations (`RU_MON` in `scripts/render.py`). -/
def RU_MON : List String :=
  ["янв", "фев", "мар", "апр", "май", "июн", "июл", "авг", "сен", "окт", "ноя", "дек"]

/-- Split a character list on a separator character. -/
def splitOnChar (sep : Char) (cs : List Char) : List (List Char) :=
  match cs with
  | [] => [[]]
  | c :: rest =>
      let tl := splitOnChar sep rest
      if c = sep then [] :: tl
      else
        match tl with
        | [] => [[c]]
        | g :: gs => (c :: g) :: gs

/-- Model of `datetime.strptime(s, "%Y-%m-%d")`: CPython's `%Y` matches
exactly four digits, `%m` and `%d` one or two digits, the whole string
must be consumed, and `datetime` requires `1 ≤ year` (4 digits cap it at
9999, `datetime.MAXYEAR`) and a valid calendar date. -/
def parseDate (s : String) : Option Date :=
  match splitOnChar '-' s.data with
  | [ys, ms, ds] =>
      if ys.length = 4 ∧ ys.all Char.isDigit
          ∧ 1 ≤ ms.length ∧ ms.length ≤ 2 ∧ ms.all Char.isDigit
          ∧ 1 ≤ ds.length ∧ ds.length ≤ 2 ∧ ds.all Char.isDigit then
        let y := digitsVal ys
        let m := digitsVal ms
        let d := digitsVal ds
        if 1 ≤ y ∧ 1 ≤ m ∧ m ≤ 12 ∧ 1 ≤ d ∧ d ≤ daysInMonth (y : Int) m then
          Option.some ⟨(y : Int), m, d⟩
        else Option.none
      else Option.none
  | _ => Option.none

/-- The Russian label "{weekday}, {day} {month}" for the date one day
after serial day `z0`. -/
def labelOfNextDay (z0 : Int) : String :=
  let z1 : Int := z0 + 1
  let d1 : Date := civilFromDays z1
  RU_DOW.getD (weekdayOfDays z1) "" ++ ", " ++ toString d1.day ++ " "
    ++ RU_MON.getD (d1.month - 1) ""

/-- `tomorrow_label(today_iso, tz)` from `scripts/render.py`, with the
wall clock (`datetime.utcnow()`) passed in as `now`.  The `tz` argument is
kept faithful to the source: `d0.replace(tzinfo=ZoneInfo(tz))` only
attaches a timezone to the naive datetime — it changes none of the date
components the label is computed from, so `tz` has no effect on the
result. -/
def tomorrow_label (today_iso : String) (tz : String) (now : Date) : String :=
  let _ := tz
  let d0 : Date := (parseDate today_iso).getD now
  labelOfNextDay (daysFromCivil d0)

/-! ### Condition classes, icons and gradients -/

/-- The five condition classes of the spec's data model. -/
inductive CondClass where
  | clear
  | cloudy
  | rain
  | snow
  | storm
deriving Repr, DecidableEq

/-- `condition_ru(code)` from `scripts/render.py` (the `int(to_float(..))`
coercion at its head is applied by the callers in this model). -/
def condition_ru (c : Int) : String :=
  if c = 0 ∨ c = 1 then "Ясно"
  else if c = 2 then "Переменная облачность"
  else if c = 3 then "Облачно"
  else if c = 45 ∨ c = 48 then "Туман"
  else if c = 51 ∨ c = 53 ∨ c = 55 then "Морось"
  else if c = 61 ∨ c = 63 ∨ c = 65 ∨ c = 80 ∨ c = 81 ∨ c = 82 then "Небольшой дождь"
  else if c = 66 ∨ c = 67 then "Ледяной дождь"
  else if c = 71 ∨ c = 73 ∨ c = 75 ∨ c = 77 ∨ c = 85 ∨ c = 86 then "Снег"
  else if c = 95 ∨ c = 96 ∨ c = 99 then "Гроза"
  else "Облачно"

/-- The condition class implicit in `icon_path`'s branch structure
(`scripts/render.py`, lines 129-137). -/
def iconClass (c : Int) : CondClass :=
  if c = 95 ∨ c = 96 ∨ c = 99 then CondClass.storm
  else if c = 71 ∨ c = 73 ∨ c = 75 ∨ c = 77 ∨ c = 85 ∨ c = 86 then CondClass.snow
  else if c = 61 ∨ c = 63 ∨ c = 65 ∨ c = 80 ∨ c = 81 ∨ c = 82 ∨ c = 51 ∨ c = 53 ∨ c = 55 then
    CondClass.rain
  else if c = 0 ∨ c = 1 then CondClass.clear
  else CondClass.cloudy

/-- The fixed condition-to-filename table of `icon_path`. -/
def iconFileName : CondClass → String
  | CondClass.storm => "storm.png"
  | CondClass.snow => "snow.png"
  | CondClass.rain => "rain.png"
  | CondClass.clear => "sun.png"
  | CondClass.cloudy => "cloud.png"

/-- The icon filename `icon_path` asks for, before the filesystem
fallback: the branch structure of `scripts/render.py`, lines 130-135. -/
def icon_name (c : Int) : String := iconFileName (iconClass c)

/-- An RGB colour. -/
abbrev RGB := Int × Int × Int

/-- The condition class implicit in `grad_by_code`'s branch structure
(`scripts/render.py`, lines 85-92).  Note its rain set omits code 55. -/
def gradClass (c : Int) : CondClass :=
  if c = 0 ∨ c = 1 then CondClass.clear
  else if c = 61 ∨ c = 63 ∨ c = 65 ∨ c = 80 ∨ c = 81 ∨ c = 82 ∨ c = 51 ∨ c = 53 then
    CondClass.rain
  else if c = 71 ∨ c = 73 ∨ c = 75 ∨ c = 77 ∨ c = 85 ∨ c = 86 then CondClass.snow
  else if c = 95 ∨ c = 96 ∨ c = 99 then CondClass.storm
  else CondClass.cloudy

/-- The top/bottom gradient pair per gradient class in `grad_by_code`. -/
def gradPalette : CondClass → RGB × RGB
  | CondClass.clear => ((25, 54, 109), (10, 22, 55))
  | CondClass.rain => ((28, 58, 86), (9, 26, 43))
  | CondClass.snow => ((38, 68, 108), (13, 29, 58))
  | CondClass.storm => ((53, 38, 94), (20, 16, 40))
  | CondClass.cloudy => ((30, 52, 84), (11, 22, 46))

/-- `grad_by_code(code)` from `scripts/render.py` (coercion applied by
callers). -/
def grad_by_code (c : Int) : RGB × RGB := gradPalette (gradClass c)

/-- The rain-overlay trigger set of `main` (`scripts/render.py`,
line 260). -/
def rainOverlayCodes : List Int := [61, 63, 65, 80, 81, 82, 51, 53, 55]

/-- Every weather code named in any branch of `icon_path` or
`grad_by_code`. -/
def knownCodes : List Int :=
  [0, 1, 51, 53, 55, 61, 63, 65, 71, 73, 75, 77, 80, 81, 82, 85, 86, 95, 96, 99]

/-! ### Payload model -/

/-- The `current` sub-dict of a city record. -/
structure CurDict where
  temp : Option PyVal
  wind : Option PyVal
  code : Option PyVal
deriving Repr, DecidableEq

/-- The `daily` sub-dict of a city record. -/
structure DailyDict where
  tmin : Option PyVal
  tmax : Option PyVal
  pprob : Option PyVal
deriving Repr, DecidableEq

/-- A city record.  `current`/`daily` collapse "key absent", "null" and
"empty dict" to `Option.none`, matching `(city or {}).get(k) or {}`. -/
structure CityDict where
  name : Option PyVal
  current : Option CurDict
  daily : Option DailyDict
deriving Repr, DecidableEq

/-- The client payload.  `cities` collapses "absent" and "null" to
`Option.none`, matching `payload.get("cities") or []`. -/
structure Payload where
  job_id : Option PyVal
  date : Option PyVal
  tz : Option PyVal
  cities : Option (List CityDict)
deriving Repr, DecidableEq

def emptyCur : CurDict := ⟨Option.none, Option.none, Option.none⟩
def emptyDaily : DailyDict := ⟨Option.none, Option.none, Option.none⟩
def emptyCity : CityDict := ⟨Option.none, Option.none, Option.none⟩
def emptyPayload : Payload := ⟨Option.none, Option.none, Option.none, Option.none⟩

/-- `str(payload.get("job_id") or "no_job").strip()`. -/
def jobIdOf (p : Payload) : String :=
  let v := p.job_id.getD PyVal.none
  let v' := if pyTruthy v then v else PyVal.str "no_job"
  String.mk (stripWS (pyStr v').data)

/-- `payload.get("cities") or []`. -/
def citiesOf (p : Payload) : List CityDict := p.cities.getD []

/-- The string handed to `tomorrow_label`: `payload.get("date","")` if it
is a string; any non-string value raises inside `strptime` and lands in
the same `except` branch as an unparseable string, so it is mapped to a
string that fails to parse. -/
def dateStrOf (p : Payload) : String :=
  match p.date.getD (PyVal.str "") with
  | PyVal.str s => s
  | _ => ""

/-- The coerced weather code of a city record, as both `main` (line 243)
and `draw_city_card` (line 195) compute it:
`int(to_float((city.get("current") or {}).get("code", 3)))`.  The `int()`
is outside `to_float`'s guard, so a code coercing to inf/nan raises. -/
def cityCode (c : CityDict) : Except NumErr Int :=
  truncIntF (to_float ((c.current.getD emptyCur).code.getD (PyVal.num ⟨3, 1⟩)) ⟨0, 1⟩)

/-- The dominant weather code of `main` (`scripts/render.py`, line 243):
the first city's code, `(cities or [{}])[0]` defaulting to `{}`. -/
def domCode (p : Payload) : Except NumErr Int :=
  cityCode (match citiesOf p with
    | [] => emptyCity
    | c :: _ => c)

/-! ### The rendered card, abstracted -/

/-- Everything `draw_city_card` draws into one column, abstracted from
pixel positions to the chosen texts and icon. -/
structure ColumnRender where
  title : String
  dateChip : String
  iconName : String
  tempText : String
  condText : String
  rangeText : String
  windText : String
  rainText : String
deriving Repr, DecidableEq

/-- What the card shows: either the "no data" placeholder or city
columns. -/
inductive CardContent where
  | noData (message : String)
  | cityColumns (cols : List ColumnRender)
deriving Repr, DecidableEq

/-- The decisions `main` makes that determine the output image. -/
structure RenderOutput where
  path : String
  gradTop : RGB
  gradBot : RGB
  rainOverlay : Bool
  content : CardContent
deriving Repr, DecidableEq

/-- Number of rendered city columns. -/
def columnCount (o : RenderOutput) : Nat :=
  match o.content with
  | CardContent.noData _ => 0
  | CardContent.cityColumns cols => cols.length

/-- `draw_city_card` from `scripts/render.py`, abstracted to the texts
and icon it draws (geometry dropped).  The numeric conversions raise in
source order (code, temp, tmin, tmax, wind, precip); the first error
propagates. -/
def draw_city_card (city : CityDict) (p : Payload) (now : Date) :
    Except NumErr ColumnRender :=
  let cur := city.current.getD emptyCur
  let daily := city.daily.getD emptyDaily
  let nameV := city.name.getD PyVal.none
  let title := if pyTruthy nameV then pyStr nameV else "—"
  match cityCode city with
  | Except.error e => Except.error e
  | Except.ok code =>
    match fmt_temp (cur.temp.getD (PyVal.num ⟨0, 1⟩)) with
    | Except.error e => Except.error e
    | Except.ok tempText =>
      match fmt_temp_full (daily.tmin.getD (PyVal.num ⟨0, 1⟩)) with
      | Except.error e => Except.error e
      | Except.ok tminText =>
        match fmt_temp_full (daily.tmax.getD (PyVal.num ⟨0, 1⟩)) with
        | Except.error e => Except.error e
        | Except.ok tmaxText =>
          match fmt_wind (cur.wind.getD (PyVal.num ⟨0, 1⟩)) with
          | Except.error e => Except.error e
          | Except.ok windText =>
            match fmt_rain (daily.pprob.getD (PyVal.num ⟨0, 1⟩)) with
            | Except.error e => Except.error e
            | Except.ok rainText =>
              Except.ok
                { title := title
                  dateChip := tomorrow_label (dateStrOf p)
                    (match p.tz.getD (PyVal.str "") with | PyVal.str s => s | _ => "") now
                  iconName := icon_name code
                  tempText := tempText
                  condText := condition_ru code
                  rangeText := tminText ++ " … " ++ tmaxText
                  windText := windText
                  rainText := rainText }

/-- `main` from `scripts/render.py`, abstracted to the rendering
decisions: output path, background gradient, rain overlay, and either the
"no data" placeholder (fewer than 2 cities) or the two city columns
(first two of the list).  `dom_code` (line 243) is computed before the
length branch, so its inf/nan `OverflowError`/`ValueError` propagates on
every path; a drawn column's conversion error propagates likewise. -/
def mainRender (p : Payload) (now : Date) : Except NumErr RenderOutput :=
  let jobId := jobIdOf p
  let cities := citiesOf p
  let path := "weather/" ++ jobId ++ ".png"
  match domCode p with
  | Except.error e => Except.error e
  | Except.ok dc =>
    let grad := grad_by_code dc
    let overlay : Bool := dc ∈ rainOverlayCodes
    if cities.length < 2 then
      Except.ok ⟨path, grad.1, grad.2, overlay, CardContent.noData "Недостаточно данных"⟩
    else
      match draw_city_card (cities.getD 0 emptyCity) p now with
      | Except.error e => Except.error e
      | Except.ok c0 =>
        match draw_city_card (cities.getD 1 emptyCity) p now with
        | Except.error e => Except.error e
        | Except.ok c1 =>
          Except.ok ⟨path, grad.1, grad.2, overlay, CardContent.cityColumns [c0, c1]⟩

/-- The filesystem as seen by `icon_path` / `load_icon`: which paths
exist, and the pixel size of the images that actually open (`Option.none`
= `Image.open` raises). -/
structure IconFs where
  found : String → Bool
  opens : String → Option (Nat × Nat)

/-- `icon_path(code)` from `scripts/render.py`: the class-specific file
if it exists, else the generic cloud icon. -/
def icon_path (found : String → Bool) (c : Int) : String :=
  if found ("assets/icons/" ++ icon_name c) then "assets/icons/" ++ icon_name c
  else "assets/icons/cloud.png"

/-- What `load_icon` hands back: a scaled copy of an opened file, or the
fully transparent 256×256 placeholder, scaled.  Scaling keeps aspect
ratio: `w = int(height * im.width / im.height)`. -/
inductive IconImage where
  | fromFile (path : String) (w h : Nat)
  | placeholder (w h : Nat)
deriving Repr, DecidableEq

/-- `load_icon(code, height)` from `scripts/render.py`. -/
def load_icon (fs : IconFs) (c : Int) (height : Nat) : IconImage :=
  match fs.opens (icon_path fs.found c) with
  | Option.some wh => IconImage.fromFile (icon_path fs.found c) (height * wh.1 / wh.2) height
  | Option.none => IconImage.placeholder (height * 256 / 256) height

/-! ### Payload loading and the composed pipeline -/

/-- The one way `scripts/render.py` can raise before rendering. -/
inductive LoadErr where
  | badJson
deriving Repr, DecidableEq

/-- `load_payload()` from `scripts/render.py`.  `ev = Option.none`: no
event path / file (returns `{}`).  `ev = Option.some Option.none`: the
event file exists but `json.load` raises (the source has no handler for
this).  Otherwise the parsed event's `client_payload or {}`. -/
def load_payload (ev : Option (Option Payload)) : Except LoadErr Payload :=
  match ev with
  | Option.none => Except.ok emptyPayload
  | Option.some Option.none => Except.error LoadErr.badJson
  | Option.some (Option.some p) => Except.ok p

/-- Either way `main` of `scripts/render.py` can die: an uncaught
event-file JSON error, or a numeric conversion error while rendering. -/
inductive PipeErr where
  | load (e : LoadErr)
  | num (e : NumErr)
deriving Repr, DecidableEq

/-- `main` of `scripts/render.py` from the event file on: `load_payload`
then render.  An error from `load_payload` propagates before `OUT_DIR` is
created or any file is written. -/
def run_pipeline (ev : Option (Option Payload)) (now : Date) : Except PipeErr RenderOutput :=
  match load_payload ev with
  | Except.error e => Except.error (PipeErr.load e)
  | Except.ok p =>
    match mainRender p now with
    | Except.error e => Except.error (PipeErr.num e)
    | Except.ok o => Except.ok o

/-! ### The plain-panel variant `render1.py` -/

/-- The Moscow record of the spec's end-to-end scenario (section 8). -/
def cityMoscow : CityDict :=
  ⟨Option.some (PyVal.str "Moscow"),
   Option.some ⟨Option.some (PyVal.num ⟨184, 10⟩), Option.some (PyVal.num ⟨32, 10⟩),
     Option.some (PyVal.num ⟨61, 1⟩)⟩,
   Option.some ⟨Option.some (PyVal.num ⟨12, 1⟩), Option.some (PyVal.num ⟨20, 1⟩),
     Option.some (PyVal.num ⟨70, 1⟩)⟩⟩

/-- The Novokuznetsk record of the spec's end-to-end scenario. -/
def cityNovok : CityDict :=
  ⟨Option.some (PyVal.str "Novokuznetsk"),
   Option.some ⟨Option.some (PyVal.num ⟨97, 10⟩), Option.some (PyVal.num ⟨5, 1⟩),
     Option.some (PyVal.num ⟨0, 1⟩)⟩,
   Option.some ⟨Option.some (PyVal.num ⟨4, 1⟩), Option.some (PyVal.num ⟨11, 1⟩),
     Option.some (PyVal.num ⟨5, 1⟩)⟩⟩

/-- The end-to-end scenario payload of the spec, section 8. -/
def scenarioPayload : Payload :=
  ⟨Option.some (PyVal.str "abc123"), Option.some (PyVal.str "2024-09-04"),
   Option.some (PyVal.str "Europe/Moscow"), Option.some [cityMoscow, cityNovok]⟩

/-- The scenario's two cities but with no `date` key. -/
def noDatePayload : Payload :=
  ⟨Option.some (PyVal.str "j"), Option.none, Option.none,
   Option.some [cityMoscow, cityNovok]⟩

/-- A payload whose city list has a single entry. -/
def oneCityPayload : Payload :=
  ⟨Option.none, Option.none, Option.none, Option.some [cityMoscow]⟩

/-- An arbitrary fixed date standing in for the wall clock. -/
def someDay : Date := ⟨2000, 1, 1⟩

/-- The scenario payload with a different second city (same first
city). -/
def altSecondPayload : Payload :=
  ⟨Option.some (PyVal.str "other"), Option.none, Option.none,
   Option.some [cityMoscow, cityMoscow]⟩

/-- An icon directory with no files at all. -/
def emptyIconFs : IconFs := ⟨fun _ => false, fun _ => Option.none⟩

/-- The three branches of `pyRound`, with the division generalized so the
facts are linear. -/
theorem pyRound_cases (x : PyNum) :
    (2 * (x.num % (x.den : Int)) < (x.den : Int) ∧ pyRound x = x.num / (x.den : Int))
    ∨ ((x.den : Int) < 2 * (x.num % (x.den : Int)) ∧ pyRound x = x.num / (x.den : Int) + 1)
    ∨ (2 * (x.num % (x.den : Int)) = (x.den : Int)
        ∧ (pyRound x = x.num / (x.den : Int) ∨ pyRound x = x.num / (x.den : Int) + 1)
        ∧ pyRound x % 2 = 0) := by
  simp only [pyRound]
  generalize x.num / (x.den : Int) = fl
  generalize x.num % (x.den : Int) = r
  generalize ((x.den : Nat) : Int) = d
  split_ifs with h1 h2 h3
  · exact Or.inl ⟨h1, rfl⟩
  · exact Or.inr (Or.inl ⟨h2, rfl⟩)
  · exact Or.inr (Or.inr ⟨by omega, Or.inl rfl, h3⟩)
  · exact Or.inr (Or.inr ⟨by omega, Or.inr rfl, by omega⟩)

/-- `pyRound` picks a nearest integer, and on a tie an even one. -/
theorem pyRound_nearest (x : PyNum) (hd : 0 < x.den) :
    |(pyRound x : Rat) - x.toRat| ≤ 1 / 2
    ∧ (|(pyRound x : Rat) - x.toRat| = 1 / 2 → pyRound x % 2 = 0) := by
  have hd0 : (0 : Int) < (x.den : Int) := by exact_mod_cast hd
  have hr0 : 0 ≤ x.num % (x.den : Int) := Int.emod_nonneg x.num (by omega)
  have hrd : x.num % (x.den : Int) < (x.den : Int) := Int.emod_lt_of_pos x.num hd0
  have heq : (x.den : Int) * (x.num / (x.den : Int)) + x.num % (x.den : Int) = x.num :=
    Int.ediv_add_emod x.num (x.den : Int)
  have hbound : |2 * pyRound x * (x.den : Int) - 2 * x.num| ≤ (x.den : Int)
      ∧ (|2 * pyRound x * (x.den : Int) - 2 * x.num| = (x.den : Int) → pyRound x % 2 = 0) := by
    rcases pyRound_cases x with ⟨hc, he⟩ | ⟨hc, he⟩ | ⟨hc, he, hpar⟩
    · rw [he]
      have hval : 2 * (x.num / (x.den : Int)) * (x.den : Int) - 2 * x.num
          = -(2 * (x.num % (x.den : Int))) := by linarith [heq]
      rw [hval, abs_of_nonpos (by linarith)]
      exact ⟨by linarith, fun habs => absurd habs (by intro hx; linarith)⟩
    · rw [he]
      have hval : 2 * (x.num / (x.den : Int) + 1) * (x.den : Int) - 2 * x.num
          = 2 * (x.den : Int) - 2 * (x.num % (x.den : Int)) := by linarith [heq]
      rw [hval, abs_of_nonneg (by linarith)]
      exact ⟨by linarith, fun habs => absurd habs (by intro hx; linarith)⟩
    · refine ⟨?_, fun _ => hpar⟩
      rcases he with he | he <;> rw [he]
      · have hval : 2 * (x.num / (x.den : Int)) * (x.den : Int) - 2 * x.num
            = -(2 * (x.num % (x.den : Int))) := by linarith [heq]
        rw [hval, abs_of_nonpos (by linarith)]
        linarith
      · have hval : 2 * (x.num / (x.den : Int) + 1) * (x.den : Int) - 2 * x.num
            = 2 * (x.den : Int) - 2 * (x.num % (x.den : Int)) := by linarith [heq]
        rw [hval, abs_of_nonneg (by linarith)]
        linarith
  have hdr : (0 : Rat) < (x.den : Rat) := by exact_mod_cast hd
  have key : (pyRound x : Rat) - x.toRat
      = ((2 * pyRound x * (x.den : Int) - 2 * x.num : Int) : Rat) / (2 * (x.den : Rat)) := by
    rw [PyNum.toRat]
    field_simp
    ring
  have h2d : (0 : Rat) < 2 * (x.den : Rat) := by linarith
  have habs2 : |2 * (x.den : Rat)| = 2 * (x.den : Rat) := abs_of_pos h2d
  have h2 : (1 : Rat) / 2 * (2 * (x.den : Rat)) = (x.den : Rat) := by ring
  rw [key, abs_div, habs2]
  constructor
  · rw [div_le_iff₀ h2d, h2]
    exact_mod_cast hbound.1
  · intro ht
    apply hbound.2
    rw [div_eq_iff (ne_of_gt h2d), h2] at ht
    exact_mod_cast ht


/-- Background facts about any successful render: gradient and overlay
come from the dominant code alone. -/
theorem mainRender_ok_background (p : Payload) (now : Date) (dc : Int)
    (hp : domCode p = Except.ok dc) (o : RenderOutput)
    (ho : mainRender p now = Except.ok o) :
    o.gradTop = (grad_by_code dc).1 ∧ o.gradBot = (grad_by_code dc).2
    ∧ o.rainOverlay = decide (dc ∈ rainOverlayCodes) := by
  simp only [mainRender, hp] at ho
  split at ho
  · injection ho with ho2
    subst ho2
    exact ⟨rfl, rfl, rfl⟩
  · split at ho
    · simp at ho
    · split at ho
      · simp at ho
      · injection ho with ho2
        subst ho2
        exact ⟨rfl, rfl, rfl⟩

/-- Inverting a successful `draw_city_card`: the column's icon and
condition text come from that city's own coerced code. -/
theorem draw_city_card_ok (c : CityDict) (p : Payload) (now : Date) (col : ColumnRender)
    (h : draw_city_card c p now = Except.ok col) :
    ∃ cc, cityCode c = Except.ok cc ∧ col.iconName = icon_name cc
      ∧ col.condText = condition_ru cc := by
  simp only [draw_city_card] at h
  split at h
  · simp at h
  · rename_i code hcode
    split at h
    · simp at h
    · split at h
      · simp at h
      · split at h
        · simp at h
        · split at h
          · simp at h
          · split at h
            · simp at h
            · injection h with h2
              subst h2
              exact ⟨code, hcode, rfl, rfl⟩

/-! ## Claims -/

/-- C1 (amended): with at least 2 city entries, any successful render
draws exactly 2 city columns — the first two of the list, truncating
longer lists; with 0 or 1 entries the renderer does not pad but (when the
dominant-code coercion is finite) completes with the "Недостаточно
данных" placeholder card and zero city columns.  Rendering is not
unconditionally non-raising: a numeric field that coerces to ±inf/nan
makes the unguarded `round()`/`int()` raise. -/
theorem mainRender_column_policy (p : Payload) (now : Date) :
    ((citiesOf p).length < 2 → ∀ dc, domCode p = Except.ok dc →
      mainRender p now = Except.ok
        ⟨"weather/" ++ jobIdOf p ++ ".png", (grad_by_code dc).1, (grad_by_code dc).2,
         decide (dc ∈ rainOverlayCodes), CardContent.noData "Недостаточно данных"⟩)
    ∧ (2 ≤ (citiesOf p).length → ∀ o, mainRender p now = Except.ok o →
        ∃ c0 c1,
          draw_city_card ((citiesOf p).getD 0 emptyCity) p now = Except.ok c0
          ∧ draw_city_card ((citiesOf p).getD 1 emptyCity) p now = Except.ok c1
          ∧ o.content = CardContent.cityColumns [c0, c1]
          ∧ columnCount o = 2) := by
  constructor
  · intro hlen dc hdc
    simp [mainRender, hdc, hlen]
  · intro hlen o ho
    have h2 : ¬ (citiesOf p).length < 2 := by omega
    simp only [mainRender] at ho
    split at ho
    · simp at ho
    · rw [if_neg h2] at ho
      split at ho
      · simp at ho
      · rename_i c0 hc0
        split at ho
        · simp at ho
        · rename_i c1 hc1
          injection ho with ho2
          subst ho2
          exact ⟨c0, c1, hc0, hc1, rfl, rfl⟩

/-- Witness for C1: the empty city list renders the no-data card. -/
theorem mainRender_column_policy_witness :
    mainRender emptyPayload someDay = Except.ok
      ⟨"weather/" ++ jobIdOf emptyPayload ++ ".png", (grad_by_code 3).1, (grad_by_code 3).2,
       decide ((3 : Int) ∈ rainOverlayCodes), CardContent.noData "Недостаточно данных"⟩ :=
  (mainRender_column_policy emptyPayload someDay).1 (by decide) 3 (by decide)

/-- C1 counterexample: a one-entry city list is not padded to 2 columns;
the card completes with zero city columns. -/
theorem oneCity_renders_no_columns :
    Except.map columnCount (mainRender oneCityPayload someDay) = Except.ok 0
    ∧ Except.map columnCount (mainRender oneCityPayload someDay) ≠ Except.ok 2 := by decide

/-- C2 counterexample: the numeric formatters are not total — a value
that `float()` converts to ±inf or nan reaches the unguarded `round()`,
which raises: `fmt_temp("inf")` and `fmt_temp("1e999")` die with
`OverflowError`, `fmt_temp("nan")` with `ValueError`. -/
theorem fmt_temp_inf_raises :
    fmt_temp (PyVal.str "inf") = Except.error NumErr.overflowError
    ∧ fmt_temp (PyVal.str "1e999") = Except.error NumErr.overflowError
    ∧ fmt_temp (PyVal.str "nan") = Except.error NumErr.valueError := by decide

/-- C2 (amended): each numeric formatter returns its documented 0-default
display string for a missing or non-numeric input (anything `float()`
rejects), and a display string for every finite numeric value; but the
formatters are not total: a value `float()` converts to ±inf or nan makes
the `round()` outside `to_float`'s guard raise `OverflowError` /
`ValueError`. -/
theorem formatters_default_or_finite (v : PyVal) :
    (toFloatOpt v = Option.none →
      fmt_temp v = Except.ok "+0" ∧ fmt_temp_full v = Except.ok "+0°C"
      ∧ fmt_wind v = Except.ok "ветер 0 м/с" ∧ fmt_rain v = Except.ok "дождь 0%")
    ∧ (∀ q : PyNum, toFloatOpt v = Option.some (PyFloat.finite q) →
      fmt_temp v = Except.ok (fmtSigned (pyRound q))
      ∧ fmt_temp_full v = Except.ok (fmtSigned (pyRound q) ++ "°C")
      ∧ fmt_wind v = Except.ok ("ветер " ++ toString (pyRound q) ++ " м/с")
      ∧ fmt_rain v = Except.ok ("дождь " ++ toString (pyRound q) ++ "%"))
    ∧ (∀ b, toFloatOpt v = Option.some (PyFloat.inf b) →
      fmt_temp v = Except.error NumErr.overflowError
      ∧ fmt_wind v = Except.error NumErr.overflowError
      ∧ fmt_rain v = Except.error NumErr.overflowError)
    ∧ (toFloatOpt v = Option.some PyFloat.nan →
      fmt_temp v = Except.error NumErr.valueError) := by
  refine ⟨?_, ?_, ?_, ?_⟩
  · intro h
    have h0 : to_float v ⟨0, 1⟩ = PyFloat.finite ⟨0, 1⟩ := by simp [to_float, h]
    refine ⟨?_, ?_, ?_, ?_⟩ <;>
      simp [fmt_temp, fmt_temp_full, fmt_wind, fmt_rain, h0, pyRoundF] <;> decide
  · intro q h
    have h0 : to_float v ⟨0, 1⟩ = PyFloat.finite q := by simp [to_float, h]
    refine ⟨?_, ?_, ?_, ?_⟩ <;>
      simp [fmt_temp, fmt_temp_full, fmt_wind, fmt_rain, h0, pyRoundF]
  · intro b h
    have h0 : to_float v ⟨0, 1⟩ = PyFloat.inf b := by simp [to_float, h]
    refine ⟨?_, ?_, ?_⟩ <;> simp [fmt_temp, fmt_wind, fmt_rain, h0, pyRoundF]
  · intro h
    have h0 : to_float v ⟨0, 1⟩ = PyFloat.nan := by simp [to_float, h]
    simp [fmt_temp, h0, pyRoundF]

set_option maxRecDepth 40000 in
/-- Witness for C2: the non-numeric "n/a" gets the defaults, while "1e5"
is a successful conversion and prints +100000. -/
theorem formatters_default_or_finite_witness :
    (fmt_temp (PyVal.str "n/a") = Except.ok "+0"
      ∧ fmt_temp_full (PyVal.str "n/a") = Except.ok "+0°C"
      ∧ fmt_wind (PyVal.str "n/a") = Except.ok "ветер 0 м/с"
      ∧ fmt_rain (PyVal.str "n/a") = Except.ok "дождь 0%")
    ∧ fmt_temp (PyVal.str "1e5") = Except.ok "+100000" :=
  ⟨(formatters_default_or_finite (PyVal.str "n/a")).1 (by decide), by decide⟩

/-- C3 counterexample: the temperature formatter does not round half away
from zero: at 2.5 it produces "+2" (Python 3 banker's rounding), not
"+3". -/
theorem fmt_temp_not_half_away :
    fmt_temp (PyVal.num ⟨5, 2⟩) = Except.ok "+2"
    ∧ fmt_temp (PyVal.num ⟨5, 2⟩) ≠ Except.ok "+3" := by decide

/-- C3 (amended): for every numeric temperature value the formatter
rounds to a nearest integer with ties to even (banker's rounding, Python
3 `round`), and always prefixes an explicit sign. -/
theorem fmt_temp_round_sign (x : PyNum) (hd : 0 < x.den) :
    fmt_temp (PyVal.num x) = Except.ok (fmtSigned (pyRound x))
    ∧ |(pyRound x : Rat) - x.toRat| ≤ 1 / 2
    ∧ (|(pyRound x : Rat) - x.toRat| = 1 / 2 → pyRound x % 2 = 0)
    ∧ (∃ t : String, fmt_temp (PyVal.num x) = Except.ok ("+" ++ t)
        ∨ fmt_temp (PyVal.num x) = Except.ok ("-" ++ t)) := by
  refine ⟨rfl, (pyRound_nearest x hd).1, (pyRound_nearest x hd).2, ?_⟩
  by_cases h : 0 ≤ pyRound x
  · exact ⟨toString (pyRound x),
      Or.inl (by simp [fmt_temp, to_float, toFloatOpt, pyRoundF, fmtSigned, h])⟩
  · exact ⟨toString (-pyRound x),
      Or.inr (by simp [fmt_temp, to_float, toFloatOpt, pyRoundF, fmtSigned, h])⟩

/-- Witness for C3 at 9.7 (rounds up to +10). -/
theorem fmt_temp_round_sign_witness :
    (fmt_temp (PyVal.num ⟨97, 10⟩) = Except.ok (fmtSigned (pyRound ⟨97, 10⟩))
      ∧ |(pyRound (⟨97, 10⟩ : PyNum) : Rat) - PyNum.toRat ⟨97, 10⟩| ≤ 1 / 2
      ∧ (|(pyRound (⟨97, 10⟩ : PyNum) : Rat) - PyNum.toRat ⟨97, 10⟩| = 1 / 2 →
          pyRound (⟨97, 10⟩ : PyNum) % 2 = 0)
      ∧ (∃ t : String, fmt_temp (PyVal.num ⟨97, 10⟩) = Except.ok ("+" ++ t)
          ∨ fmt_temp (PyVal.num ⟨97, 10⟩) = Except.ok ("-" ++ t)))
    ∧ fmt_temp (PyVal.num ⟨97, 10⟩) = Except.ok "+10" :=
  ⟨fmt_temp_round_sign ⟨97, 10⟩ (by decide), by decide⟩

/-- C7: the empty payload `{}` (also: an absent event file, which loads
as `{}`) renders without error to `weather/no_job.png` with the "no data"
placeholder message instead of city columns. -/
theorem empty_payload_no_job (now : Date) :
    mainRender emptyPayload now =
      Except.ok ⟨"weather/no_job.png", (30, 52, 84), (11, 22, 46), false,
        CardContent.noData "Недостаточно данных"⟩
    ∧ run_pipeline Option.none now =
      Except.ok ⟨"weather/no_job.png", (30, 52, 84), (11, 22, 46), false,
        CardContent.noData "Недостаточно данных"⟩ :=
  ⟨rfl, rfl⟩

/-- C4 (amended): rendering is deterministic — independent of the wall
clock — whenever `payload.date` parses as a valid YYYY-MM-DD date
(4-digit year ≥ 1), and also on the no-data path; but when a payload with
a missing or unparseable date renders two city columns, the date chip
falls back to `datetime.utcnow()`.  No pseudo-random particle overlay
exists: the rain overlay is a fixed deterministic grid (`random` is
imported but never used). -/
theorem mainRender_deterministic (p : Payload) (d : Date) (now1 now2 : Date)
    (h : parseDate (dateStrOf p) = Option.some d ∨ (citiesOf p).length < 2) :
    mainRender p now1 = mainRender p now2 := by
  rcases h with h | h
  · have hlab : ∀ tz now, tomorrow_label (dateStrOf p) tz now
        = labelOfNextDay (daysFromCivil d) := by
      intro tz now
      simp [tomorrow_label, h]
    have hdraw : ∀ c, draw_city_card c p now1 = draw_city_card c p now2 := by
      intro c
      simp [draw_city_card, hlab]
    simp [mainRender, hdraw]
  · rcases hdc : domCode p with e | dc <;> simp [mainRender, hdc, h]

/-- Witness for C4 at the scenario payload, whose date parses. -/
theorem mainRender_deterministic_witness :
    mainRender scenarioPayload ⟨2024, 9, 4⟩ = mainRender scenarioPayload ⟨2024, 12, 25⟩ :=
  mainRender_deterministic scenarioPayload ⟨2024, 9, 4⟩ ⟨2024, 9, 4⟩ ⟨2024, 12, 25⟩
    (Or.inl (by decide))

/-- C4 counterexample: with no usable date and two cities, the rendered
card differs between two wall-clock days — wall-clock entropy reaches the
pixels. -/
theorem mainRender_wall_clock_dependent :
    mainRender noDatePayload ⟨2024, 9, 4⟩ ≠ mainRender noDatePayload ⟨2024, 12, 25⟩ := by
  decide

/-- C5: when `date` parses, the label is the day **after** it —
independent of `tz` and of the wall clock — formatted "{short weekday},
{day} {short month}" from the fixed Russian tables; for "2024-09-04" it
is "Чт, 5 сен" (2024-09-05 is a Thursday). -/
theorem tomorrow_label_next_day (s tz tz' : String) (now now' d : Date)
    (h : parseDate s = Option.some d) :
    tomorrow_label s tz now
      = RU_DOW.getD (weekdayOfDays (daysFromCivil d + 1)) "" ++ ", "
        ++ toString (civilFromDays (daysFromCivil d + 1)).day ++ " "
        ++ RU_MON.getD ((civilFromDays (daysFromCivil d + 1)).month - 1) ""
    ∧ tomorrow_label s tz now = tomorrow_label s tz' now'
    ∧ tomorrow_label "2024-09-04" tz now = "Чт, 5 сен" := by
  refine ⟨by simp [tomorrow_label, h, labelOfNextDay], by simp [tomorrow_label, h], ?_⟩
  have h4 : parseDate "2024-09-04" = Option.some ⟨2024, 9, 4⟩ := by decide
  calc tomorrow_label "2024-09-04" tz now
      = labelOfNextDay (daysFromCivil ⟨2024, 9, 4⟩) := by simp [tomorrow_label, h4]
    _ = "Чт, 5 сен" := by decide

/-- Witness for C5 at the scenario date. -/
theorem tomorrow_label_next_day_witness :
    tomorrow_label "2024-09-04" "Europe/Moscow" someDay = "Чт, 5 сен" :=
  (tomorrow_label_next_day "2024-09-04" "Europe/Moscow" "" someDay someDay ⟨2024, 9, 4⟩
    (by decide)).2.2

/-- C6 counterexample: code 55 (dense drizzle) resolves to rain in the
icon selection but to cloudy in the gradient selection — no single
condition class drives both. -/
theorem code55_two_classes :
    iconClass 55 = CondClass.rain ∧ gradClass 55 = CondClass.cloudy
    ∧ CondClass.rain ≠ CondClass.cloudy := by decide

/-- C6 (amended): the icon mapping and the gradient mapping are each
total — every integer code resolves to exactly one of the five classes,
and every unrecognized code maps to cloudy in both — and the two
mappings agree at every code except 55, where they split (rain icon,
cloudy gradient). -/
theorem condition_class_total (c : Int) (h55 : c ≠ 55) :
    iconClass c = gradClass c
    ∧ icon_name c = iconFileName (iconClass c)
    ∧ grad_by_code c = gradPalette (gradClass c)
    ∧ (c ∉ knownCodes → iconClass c = CondClass.cloudy ∧ gradClass c = CondClass.cloudy) := by
  refine ⟨?_, rfl, rfl, ?_⟩
  · unfold iconClass gradClass
    split_ifs <;> first | rfl | (exfalso; omega)
  · intro hk
    simp only [knownCodes, List.mem_cons, List.not_mem_nil, or_false, not_or] at hk
    constructor
    · unfold iconClass
      split_ifs <;> first | rfl | (exfalso; omega)
    · unfold gradClass
      split_ifs <;> first | rfl | (exfalso; omega)

/-- Witness for C6 at the unrecognized code 100. -/
theorem condition_class_total_witness :
    (iconClass 100 = gradClass 100
      ∧ icon_name 100 = iconFileName (iconClass 100)
      ∧ grad_by_code 100 = gradPalette (gradClass 100)
      ∧ ((100 : Int) ∉ knownCodes →
          iconClass 100 = CondClass.cloudy ∧ gradClass 100 = CondClass.cloudy))
    ∧ iconClass 100 = CondClass.cloudy :=
  ⟨condition_class_total 100 (by decide), by decide⟩

/-- C8: icon resolution is total: every class asks for one of the five
fixed filenames; if the class-specific file is missing, `icon_path`
falls back to the generic cloud icon; if the resolved file cannot be
opened, `load_icon` returns the fully transparent 256×256 placeholder
(scaled to the requested height); in every case an image comes back. -/
theorem icon_resolution_total (fs : IconFs) (c : Int) (h : Nat) :
    icon_name c ∈ ["storm.png", "snow.png", "rain.png", "sun.png", "cloud.png"]
    ∧ (fs.found ("assets/icons/" ++ icon_name c) = false →
        icon_path fs.found c = "assets/icons/cloud.png")
    ∧ (fs.opens (icon_path fs.found c) = Option.none →
        load_icon fs c h = IconImage.placeholder h h)
    ∧ ((∃ w, load_icon fs c h = IconImage.fromFile (icon_path fs.found c) w h)
        ∨ load_icon fs c h = IconImage.placeholder h h) := by
  have h256 : h * 256 / 256 = h := by omega
  refine ⟨?_, ?_, ?_, ?_⟩
  · unfold icon_name
    cases iconClass c <;> decide
  · intro hm
    simp [icon_path, hm]
  · intro ho
    simp [load_icon, ho, h256]
  · cases hop : fs.opens (icon_path fs.found c) with
    | some wh => exact Or.inl ⟨h * wh.1 / wh.2, by simp [load_icon, hop]⟩
    | none => exact Or.inr (by simp [load_icon, hop, h256])

/-- Witness for C8 on an icon directory with no files. -/
theorem icon_resolution_total_witness :
    icon_path emptyIconFs.found 0 = "assets/icons/cloud.png"
    ∧ load_icon emptyIconFs 0 100 = IconImage.placeholder 100 100 :=
  ⟨(icon_resolution_total emptyIconFs 0 100).2.1 rfl,
   (icon_resolution_total emptyIconFs 0 100).2.2.1 rfl⟩

/-- C10: the background gradient and the rain-overlay decision are
functions of the first city's coerced `current.code` alone (3 — cloudy —
when the city list is empty or the field is missing); any two payloads
agreeing on that code get identical backgrounds and overlays under any
wall clocks, while each rendered column's icon and condition text use
that column's own code. -/
theorem background_from_first_city (p q : Payload) (now now' : Date) (dc : Int)
    (hp : domCode p = Except.ok dc) (hq : domCode q = Except.ok dc) :
    (∀ o, mainRender p now = Except.ok o →
      o.gradTop = (grad_by_code dc).1 ∧ o.gradBot = (grad_by_code dc).2
      ∧ o.rainOverlay = decide (dc ∈ rainOverlayCodes))
    ∧ (∀ o o', mainRender p now = Except.ok o → mainRender q now' = Except.ok o' →
      o.gradTop = o'.gradTop ∧ o.gradBot = o'.gradBot ∧ o.rainOverlay = o'.rainOverlay)
    ∧ (citiesOf p = [] → domCode p = Except.ok 3)
    ∧ (∀ c col, draw_city_card c p now = Except.ok col →
      ∃ cc, cityCode c = Except.ok cc
        ∧ col.iconName = icon_name cc ∧ col.condText = condition_ru cc) := by
  refine ⟨fun o ho => mainRender_ok_background p now dc hp o ho, ?_, ?_, ?_⟩
  · intro o o' ho ho'
    have a := mainRender_ok_background p now dc hp o ho
    have b := mainRender_ok_background q now' dc hq o' ho'
    exact ⟨a.1.trans b.1.symm, a.2.1.trans b.2.1.symm, a.2.2.trans b.2.2.symm⟩
  · intro h0
    simp only [domCode, h0]
    decide
  · intro c col h
    exact draw_city_card_ok c p now col h

/-- Witness for C10: the scenario payload's background is the rain
palette of its first city's code 61, whatever the second city is. -/
theorem background_from_first_city_witness :
    Except.map RenderOutput.gradTop (mainRender scenarioPayload someDay)
      = Except.ok (28, 58, 86) := by
  have h := (background_from_first_city scenarioPayload altSecondPayload someDay
      ⟨2024, 12, 25⟩ 61 (by decide) (by decide)).1
  have hconc : mainRender scenarioPayload someDay = Except.ok
      ⟨"weather/abc123.png", (28, 58, 86), (9, 26, 43), true,
       CardContent.cityColumns
         [⟨"Moscow", "Чт, 5 сен", "rain.png", "+18", "Небольшой дождь",
           "+12°C … +20°C", "ветер 3 м/с", "дождь 70%"⟩,
          ⟨"Novokuznetsk", "Чт, 5 сен", "sun.png", "+10", "Ясно",
           "+4°C … +11°C", "ветер 5 м/с", "дождь 5%"⟩]⟩ := by decide
  have hb := h _ hconc
  calc Except.map RenderOutput.gradTop (mainRender scenarioPayload someDay)
      = Except.ok ((grad_by_code 61).1) := by
        rw [hconc]
        exact congrArg Except.ok hb.1
    _ = Except.ok (28, 58, 86) := by decide

end Render
